import Mathlib

/-!
# FixIt-AI: shallow embedding of the client-side orchestration core

This development embeds the session state machine, the model-gateway
operations and the presentation mapping of the FixIt-AI application
(`App.tsx`, `services/geminiService.ts`, `components/FileUpload`,
`components/ResultDisplay`, `components/SupportChat`) as executable Lean
definitions, and proves the specified properties about them.

External effects (the generative-model exchange, `JSON.parse`, the file
reader, `crypto.randomUUID`, `Date.now`, `URL.createObjectURL`) are
modelled as oracle arguments: each handler takes the outcome the
corresponding awaited call would deliver and computes the resulting
state, together with the list of gateway requests it issued.
-/

namespace FixIt

/-- JavaScript truthiness of an optional string: `undefined`/`null` and
the empty string are falsy (`!s` in the source). -/
def isFalsyStr : Option String → Bool
  | none => true
  | some s => s == ""

/-- JavaScript `t || fallback` on an optional string value. -/
def falsyOr (t : Option String) (fallback : String) : String :=
  match t with
  | none => fallback
  | some s => if s == "" then fallback else s

/-- JavaScript `s.trim()`: strip leading and trailing whitespace
(modelled character-wise, executably). -/
def trimmed (s : String) : String :=
  String.mk (((s.data.dropWhile Char.isWhitespace).reverse.dropWhile
    Char.isWhitespace).reverse)

/-! ## Data model (`types.ts`) -/

/-- `RepairStep` from `types.ts`. -/
structure RepairStep where
  step : Int
  instruction : String
  detail : String
deriving DecidableEq

/-- `Annotation` from `types.ts`: a label and the `box_2d` array
`[ymin, xmin, ymax, xmax]` normalized to a 1000-unit grid. -/
structure Annotation where
  label : String
  ymin : Int
  xmin : Int
  ymax : Int
  xmax : Int
deriving DecidableEq

/-- `FixItResponse` from `types.ts`: the diagnosis result. `id`,
`timestamp` and `imageUrl` are optional (stamped client-side after the
gateway call). -/
structure FixItResponse where
  id : Option String
  timestamp : Option Nat
  imageUrl : Option String
  title : String
  problemDescription : String
  rootCause : String
  safetyWarnings : List String
  toolsNeeded : List String
  steps : List RepairStep
  visualGuide : String
  annotations : Option (List Annotation)
deriving DecidableEq

/-- `DetectedItem` from `types.ts`. -/
structure DetectedItem where
  id : String
  name : String
  description : String
deriving DecidableEq

/-- `AppStatus` from `types.ts`. -/
inductive AppStatus where
  | IDLE
  | UPLOADED
  | DETECTING
  | SELECTING
  | ANALYZING
  | SUCCESS
  | ERROR
deriving DecidableEq

/-- The part of a browser `File` object the code reads: `size` and
`type` (the declared MIME string). -/
structure JSFile where
  size : Nat
  mime : String
deriving DecidableEq

/-- The `'image' | 'video'` media kind of `MediaFile.type`. -/
inductive MediaKind where
  | image
  | video
deriving DecidableEq

/-- `MediaFile` from `types.ts`. -/
structure MediaFile where
  file : JSFile
  previewUrl : String
  kind : MediaKind
  base64 : Option String
deriving DecidableEq

/-- `ChatMessage.role` from `types.ts`. -/
inductive Role where
  | user
  | model
deriving DecidableEq

/-- `ChatMessage` from `types.ts`. -/
structure ChatMessage where
  role : Role
  text : String
deriving DecidableEq

/-! ## Session state (`App.tsx` component state)

The sidebar-open and dark-mode booleans are pure presentation toggles
(they gate no handler and touch no session data), so they are not part
of the embedded session state. -/

/-- The `App` component's session state. -/
structure AppState where
  status : AppStatus
  result : Option FixItResponse
  error : Option String
  history : List FixItResponse
  currentMedia : Option MediaFile
  detectedItems : List DetectedItem
deriving DecidableEq

/-- Initial state of the `App` component. -/
def initialState : AppState :=
  { status := .IDLE,
    result := none,
    error := none,
    history := [],
    currentMedia := none,
    detectedItems := [] }

/-- A request issued to the model gateway (`geminiService`). -/
inductive GatewayCall where
  | detect (base64Data : String) (mimeType : String)
  | analyze (base64Data : String) (mimeType : String) (focusContext : Option String)
deriving DecidableEq

/-! ## Handlers of `App.tsx` -/

/-- `handleFileSelect`: ignores media without a (truthy) base64 payload,
otherwise stores the media, enters `UPLOADED` and clears the error. -/
def handleFileSelect (s : AppState) (media : MediaFile) : AppState :=
  if isFalsyStr media.base64 then s
  else { s with currentMedia := some media, status := .UPLOADED, error := none }

/-- The focus context built by `handleItemSelect`:
`"<name> - <description>"` for a chosen item, absent otherwise. -/
def focusOf : Option DetectedItem → Option String
  | none => none
  | some item => some (item.name ++ " - " ++ item.description)

/-- The client-side stamping in `handleItemSelect`:
`{...analysisResult, id: crypto.randomUUID(), timestamp: Date.now(),
imageUrl: currentMedia.previewUrl}`. -/
def withMeta (analysisResult : FixItResponse) (freshId : String) (now : Nat)
    (previewUrl : String) : FixItResponse :=
  { analysisResult with
    id := some freshId,
    timestamp := some now,
    imageUrl := some previewUrl }

/-- `handleItemSelect`: guards on a present base64 payload, issues the
diagnosis request with the optional focus context, and on success stamps
the result (fresh id, timestamp, image reference), stores it, prepends
it to the history and enters `SUCCESS`; on failure enters `ERROR` with
the diagnosis-specific message. `analyzeOutcome` is the oracle outcome
of `analyzeMedia`; `freshId`/`now` are the oracle values of
`crypto.randomUUID()` and `Date.now()`. -/
def handleItemSelect (s : AppState) (item : Option DetectedItem)
    (analyzeOutcome : Except Unit FixItResponse) (freshId : String) (now : Nat) :
    AppState × List GatewayCall :=
  match s.currentMedia with
  | none => (s, [])
  | some media =>
    if isFalsyStr media.base64 then (s, [])
    else
      let req := GatewayCall.analyze (media.base64.getD "") media.file.mime (focusOf item)
      match analyzeOutcome with
      | .ok analysisResult =>
          let resultWithMeta := withMeta analysisResult freshId now media.previewUrl
          ({ s with
             status := .SUCCESS,
             result := some resultWithMeta,
             history := resultWithMeta :: s.history }, [req])
      | .error _ =>
          ({ s with
             status := .ERROR,
             error := some "Failed to generate repair guide. Please try again." }, [req])

/-- `handleStartDetection`: guards on a present base64 payload, enters
`DETECTING` with the error cleared, issues the detection request; on a
non-empty item list stores the items and enters `SELECTING`; on an empty
list falls through to `handleItemSelect(null)`; on failure enters
`ERROR` with the detection-specific message. -/
def handleStartDetection (s : AppState)
    (detectOutcome : Except Unit (List DetectedItem))
    (analyzeOutcome : Except Unit FixItResponse) (freshId : String) (now : Nat) :
    AppState × List GatewayCall :=
  match s.currentMedia with
  | none => (s, [])
  | some media =>
    if isFalsyStr media.base64 then (s, [])
    else
      let s1 := { s with status := .DETECTING, error := none }
      let dreq := GatewayCall.detect (media.base64.getD "") media.file.mime
      match detectOutcome with
      | .ok items =>
          if items.length > 0 then
            ({ s1 with detectedItems := items, status := .SELECTING }, [dreq])
          else
            let r := handleItemSelect s1 none analyzeOutcome freshId now
            (r.1, dreq :: r.2)
      | .error _ =>
          ({ s1 with
             status := .ERROR,
             error := some "Failed to identify items in the image. Please try again." }, [dreq])

/-- `handleReset`: back to `IDLE`, clearing result, error, media and
detected items; the history is untouched. -/
def handleReset (s : AppState) : AppState :=
  { s with
    status := .IDLE,
    result := none,
    error := none,
    currentMedia := none,
    detectedItems := [] }

/-- `handleClearFile`: back to `IDLE`, clearing media and detected
items only. -/
def handleClearFile (s : AppState) : AppState :=
  { s with status := .IDLE, currentMedia := none, detectedItems := [] }

/-- `handleSelectAnother`: drops the current result and re-enters
`SELECTING`. -/
def handleSelectAnother (s : AppState) : AppState :=
  { s with result := none, status := .SELECTING }

/-- `handleHistorySelect`: installs a stored result as current and
enters `SUCCESS`. -/
def handleHistorySelect (s : AppState) (item : FixItResponse) : AppState :=
  { s with result := some item, status := .SUCCESS }

/-! ## Events, enabledness and reachability

An event bundles a user action with the oracle outcomes its handler
awaits. `enabled` records when the triggering control is rendered /
invokable in `App.tsx`'s markup: the upload widget only in `IDLE` and
`UPLOADED`, the analyze button only in `UPLOADED`, the item selector
only in `SELECTING` with media present (and only for listed items —
`ItemSelector` has no null-selection control), `selectAnother` only in
`SUCCESS` with a result and a non-empty detected list, history
selection only for entries of the history; the reset controls are
global. -/

inductive Event where
  | fileSelect (media : MediaFile)
  | startDetection (d : Except Unit (List DetectedItem))
      (a : Except Unit FixItResponse) (freshId : String) (now : Nat)
  | itemSelect (item : DetectedItem)
      (a : Except Unit FixItResponse) (freshId : String) (now : Nat)
  | reset
  | clearFile
  | selectAnother
  | historySelect (item : FixItResponse)

/-- When the control firing an event is available in the rendered UI. -/
def enabled (s : AppState) : Event → Prop
  | .fileSelect _ => s.status = .IDLE ∨ s.status = .UPLOADED
  | .startDetection _ _ _ _ => s.status = .UPLOADED
  | .itemSelect item _ _ _ =>
      s.status = .SELECTING ∧ s.currentMedia ≠ none ∧ item ∈ s.detectedItems
  | .reset => True
  | .clearFile => s.status = .IDLE ∨ s.status = .UPLOADED
  | .selectAnother => s.status = .SUCCESS ∧ s.result ≠ none ∧ s.detectedItems ≠ []
  | .historySelect item => item ∈ s.history

/-- One step of the session state machine. -/
def step (s : AppState) : Event → AppState
  | .fileSelect media => handleFileSelect s media
  | .startDetection d a freshId now => (handleStartDetection s d a freshId now).1
  | .itemSelect item a freshId now => (handleItemSelect s (some item) a freshId now).1
  | .reset => handleReset s
  | .clearFile => handleClearFile s
  | .selectAnother => handleSelectAnother s
  | .historySelect item => handleHistorySelect s item

/-- Run a list of events from a state. -/
def run (s : AppState) : List Event → AppState
  | [] => s
  | e :: es => run (step s e) es

/-- States reachable from the initial state through enabled events. -/
inductive Reachable : AppState → Prop
  | init : Reachable initialState
  | next (s : AppState) (e : Event) : Reachable s → enabled s e → Reachable (step s e)

/-! ## Model Gateway (`services/geminiService.ts`)

The network exchange is an oracle (`exchange`): `.error ()` when the
awaited call throws, `.ok text` when it returns, with `text` the
optional `response.text`. `JSON.parse` is an oracle function returning
`none` when parsing throws. Prompt texts, schema declarations and
transport configuration are data handed to the external service and are
absorbed into the oracle. -/

/-- Result of `JSON.parse` on a detection response: an object whose
`items` field may be absent. -/
structure DetectParsed where
  items : Option (List DetectedItem)
deriving DecidableEq

/-- The literal fallback text `'\x7b "items": [] \x7d'` that
`detectItems` hands to `JSON.parse` when `response.text` is falsy. -/
def defaultDetectJson : String := "\x7b \"items\": [] \x7d"

/-- `detectItems`: throws when the API key is falsy, when the exchange
throws, or when `JSON.parse` throws; otherwise parses
`response.text || '\x7b "items": [] \x7d'` and returns
`parsed.items || []`. -/
def detectItems (apiKey : Option String)
    (exchange : Except Unit (Option String))
    (jsonParse : String → Option DetectParsed) :
    Except Unit (List DetectedItem) :=
  if isFalsyStr apiKey then .error ()
  else
    match exchange with
    | .error _ => .error ()
    | .ok text =>
        match jsonParse (falsyOr text defaultDetectJson) with
        | none => .error ()
        | some parsed => .ok (parsed.items.getD [])

/-- `analyzeMedia`: throws when the API key is falsy, when the exchange
throws, when `response.text` is falsy (`"No response from AI"`), or
when `JSON.parse` throws; otherwise returns the parsed diagnosis. -/
def analyzeMedia (apiKey : Option String)
    (exchange : Except Unit (Option String))
    (jsonParse : String → Option FixItResponse) :
    Except Unit FixItResponse :=
  if isFalsyStr apiKey then .error ()
  else
    match exchange with
    | .error _ => .error ()
    | .ok text =>
        if isFalsyStr text then .error ()
        else
          match jsonParse (text.getD "") with
          | none => .error ()
          | some r => .ok r

/-- `getChatResponse` (repair chat): throws when the API key is falsy
or the exchange throws; otherwise returns
`result.text || "I couldn't generate a response."`. The
context-embedding system instruction and the transcript are handed to
the external service and absorbed into the exchange oracle. -/
def getChatResponse (apiKey : Option String)
    (_currentContext : FixItResponse) (_history : List ChatMessage)
    (_newMessage : String) (exchange : Except Unit (Option String)) :
    Except Unit String :=
  if isFalsyStr apiKey then .error ()
  else
    match exchange with
    | .error _ => .error ()
    | .ok t => .ok (falsyOr t "I couldn't generate a response.")

/-- `getSupportChatResponse` (app-support chat): same contract as
`getChatResponse` with the fixed support persona and the fallback
`"I'm having trouble connecting right now. Please try again later."`. -/
def getSupportChatResponse (apiKey : Option String)
    (_history : List ChatMessage) (_newMessage : String)
    (exchange : Except Unit (Option String)) : Except Unit String :=
  if isFalsyStr apiKey then .error ()
  else
    match exchange with
    | .error _ => .error ()
    | .ok t => .ok (falsyOr t "I'm having trouble connecting right now. Please try again later.")

/-! ## Media Capture Adapter (`components/FileUpload.tsx`) -/

/-- The 20 MB upload limit of `FileUpload.handleFile`. -/
def fileSizeLimit : Nat := 20 * 1024 * 1024

/-- The validation alert shown for oversized files. -/
def fileTooLargeAlert : String :=
  "File size too large. Please upload files smaller than 20MB."

/-- Media-kind classification by declared MIME prefix:
`file.type.startsWith('video') ? 'video' : 'image'`. -/
def mediaKindOf (mime : String) : MediaKind :=
  if mime.startsWith "video" then .video else .image

/-- Observable outcome of `FileUpload.handleFile`: the session state,
the component's local preview, the alert raised (if any) and the
gateway requests issued during capture. -/
structure HandleFileOutcome where
  appState : AppState
  preview : Option MediaFile
  alert : Option String
  calls : List GatewayCall
deriving DecidableEq

/-- `FileUpload.handleFile`: rejects files over the 20 MB limit with an
alert and no further effect; otherwise builds the `MediaFile` (preview
object URL from `URL.createObjectURL`, base64 payload extracted from
the `FileReader` data URL — both oracle inputs here), stores it as the
preview and hands it to `App.handleFileSelect`. Capture never issues a
gateway request. -/
def handleFile (s : AppState) (preview : Option MediaFile) (f : JSFile)
    (readerBase64 : String) (objectUrl : String) : HandleFileOutcome :=
  if f.size > fileSizeLimit then
    ⟨s, preview, some fileTooLargeAlert, []⟩
  else
    let mediaFile : MediaFile := ⟨f, objectUrl, mediaKindOf f.mime, some readerBase64⟩
    ⟨handleFileSelect s mediaFile, some mediaFile, none, []⟩

/-! ## Chat components (`ResultDisplay.tsx`, `SupportChat.tsx`) -/

/-- Local state of the repair Q&A chat in `ResultDisplay`. -/
structure RepairChatState where
  chatHistory : List ChatMessage
  input : String
  isChatLoading : Bool
deriving DecidableEq

/-- The fixed fallback appended when a repair-chat call throws. -/
def repairChatFallback : String := "Sorry, I encountered an error answering that."

/-- `ResultDisplay.handleSendChat`: no-op on blank input or while a
call is outstanding; otherwise appends the user turn, then on success
the reply, on failure the fixed fallback, clearing the input and the
loading flag. -/
def handleSendChat (c : RepairChatState) (outcome : Except Unit String) :
    RepairChatState :=
  if trimmed c.input == "" || c.isChatLoading then c
  else
    let userMsg : ChatMessage := ⟨.user, c.input⟩
    match outcome with
    | .ok responseText =>
        ⟨c.chatHistory ++ [userMsg, ⟨.model, responseText⟩], "", false⟩
    | .error _ =>
        ⟨c.chatHistory ++ [userMsg, ⟨.model, repairChatFallback⟩], "", false⟩

/-- Local state of the app-support chat in `SupportChat`. -/
structure SupportChatState where
  messages : List ChatMessage
  input : String
  isLoading : Bool
deriving DecidableEq

/-- The static welcome turn `SupportChat` starts with. -/
def supportChatWelcome : ChatMessage :=
  ⟨.model, "Hi! I can help you use the FixIt AI app. What can I do for you?"⟩

/-- The fixed fallback appended when a support-chat call throws. -/
def supportChatFallback : String :=
  "Sorry, I'm having trouble connecting. Please check your internet or try again."

/-- `SupportChat.handleSend`: same shape as `handleSendChat`, over the
support transcript with its own fallback. -/
def handleSend (c : SupportChatState) (outcome : Except Unit String) :
    SupportChatState :=
  if trimmed c.input == "" || c.isLoading then c
  else
    let userMsg : ChatMessage := ⟨.user, c.input⟩
    match outcome with
    | .ok responseText =>
        ⟨c.messages ++ [userMsg, ⟨.model, responseText⟩], "", false⟩
    | .error _ =>
        ⟨c.messages ++ [userMsg, ⟨.model, supportChatFallback⟩], "", false⟩

/-- A chat send as seen by the whole client: the chat handlers live in
their components and have no access to the session state's setters, so
the session component of the pair is untouched by construction — this
definition records exactly that about the source. -/
def sessionChatSend (s : AppState) (c : RepairChatState)
    (outcome : Except Unit String) : AppState × RepairChatState :=
  (s, handleSendChat c outcome)

/-- A support-chat send as seen by the whole client. -/
def sessionSupportSend (s : AppState) (c : SupportChatState)
    (outcome : Except Unit String) : AppState × SupportChatState :=
  (s, handleSend c outcome)

/-! ## Presentation Mapper (`AnnotatedImage` in `ResultDisplay.tsx`) -/

/-- The CSS overlay computed for one annotation, in percent of the
rendered image's dimensions. -/
structure OverlayBox where
  top : ℚ
  left : ℚ
  height : ℚ
  width : ℚ
deriving DecidableEq

/-- The coordinate mapping of `AnnotatedImage`:
`top = (ymin / 1000) * 100` etc. on the `box_2d` grid. -/
def annotationOverlay (a : Annotation) : OverlayBox :=
  { top := ((a.ymin : ℚ) / 1000) * 100,
    left := ((a.xmin : ℚ) / 1000) * 100,
    height := (((a.ymax : ℚ) - (a.ymin : ℚ)) / 1000) * 100,
    width := (((a.xmax : ℚ) - (a.xmin : ℚ)) / 1000) * 100 }

/-! ## Concrete sample data (used in witnesses and counterexamples) -/

/-- A small captured image with a present base64 payload. -/
def sampleMedia : MediaFile :=
  ⟨⟨2 * 1024 * 1024, "image/jpeg"⟩, "blob:preview-1", .image, some "QUJD"⟩

/-- A session state holding `sampleMedia`, as after a capture. -/
def sampleState : AppState :=
  { initialState with currentMedia := some sampleMedia, status := .UPLOADED }

/-- A parsed diagnosis as the gateway would deliver it (no id, no
timestamp, no image reference yet). -/
def sampleAnalysis : FixItResponse :=
  ⟨none, none, none, "Fix the Leaky Faucet", "The faucet drips at the base.",
   "A worn washer.", ["Turn off the water supply first."], ["Adjustable wrench"],
   [⟨1, "Shut off the supply valve", "It is under the sink."⟩,
    ⟨2, "Replace the washer", "Use a matching size."⟩],
   "Look for the [Supply Valve] near the *base*.", some []⟩

/-- A detected item as the detection call would deliver it. -/
def sampleItem : DetectedItem := ⟨"1", "Faucet", "dripping at the base"⟩

/-- A `JSON.parse` oracle that behaves as `JSON.parse` must on the
default detection literal and throws on everything else. -/
def parseOracleCex : String → Option DetectParsed := fun t =>
  if t == defaultDetectJson then some ⟨some []⟩ else none

/-- Media for the clear-vs-reset counterexample run. -/
def cexMedia : MediaFile := ⟨⟨1000, "image/jpeg"⟩, "blob:cex", .image, some "AAAA"⟩

/-- Diagnosis payload for the clear-vs-reset counterexample run. -/
def cexAnalysis : FixItResponse :=
  ⟨none, none, none, "T", "P", "R", [], [], [], "V", none⟩

/-- An enabled event run: capture, then analyze with an empty detection
list and a successful diagnosis — ending in `SUCCESS` with a stored
result. -/
def cexEvents : List Event :=
  [.fileSelect cexMedia, .startDetection (.ok []) (.ok cexAnalysis) "cex-id" 7]

/-- The reachable `SUCCESS` state at the end of `cexEvents`. -/
def cexState : AppState := run initialState cexEvents

/-! # Theorems -/

/-- C4: from any session state, `handleReset` moves the machine to
`IDLE` with the captured media, detected items, current result and
error all cleared, while the history is left exactly unchanged. -/
theorem reset_clears_all_and_preserves_history (s : AppState) :
    handleReset s =
      { status := .IDLE,
        result := none,
        error := none,
        history := s.history,
        currentMedia := none,
        detectedItems := [] } := rfl

/-- C7: a file whose size exceeds 20 MB (20 * 1024 * 1024 bytes) is
rejected at capture with the fixed user-visible validation alert; the
session state and the local preview are unchanged and no gateway call
is issued. -/
theorem oversized_file_rejected (s : AppState) (preview : Option MediaFile)
    (f : JSFile) (readerBase64 objectUrl : String)
    (h : f.size > 20 * 1024 * 1024) :
    handleFile s preview f readerBase64 objectUrl =
      ⟨s, preview, some fileTooLargeAlert, []⟩ := by
  simp [handleFile, fileSizeLimit, h]

/-- C7 witness: a 25 MB file is rejected and nothing else happens. -/
theorem oversized_file_rejected_witness :
    (25 * 1024 * 1024 : Nat) > 20 * 1024 * 1024 ∧
    handleFile sampleState none ⟨25 * 1024 * 1024, "image/png"⟩ "QUJD" "blob:x" =
      ⟨sampleState, none, some fileTooLargeAlert, []⟩ :=
  ⟨by norm_num,
   oversized_file_rejected sampleState none ⟨25 * 1024 * 1024, "image/png"⟩
     "QUJD" "blob:x" (by norm_num)⟩

/-- C10: when the external exchange succeeds but the reply text is
absent or empty, neither chat operation fails: the repair chat returns
the canned string `"I couldn't generate a response."` and the support
chat returns `"I'm having trouble connecting right now. Please try
again later."`, each as an ordinary successful reply. -/
theorem empty_reply_returns_canned_string (key : String) (hk : key ≠ "")
    (ctx : FixItResponse) (hist shist : List ChatMessage) (msg smsg : String) :
    getChatResponse (some key) ctx hist msg (.ok none) =
      .ok "I couldn't generate a response." ∧
    getChatResponse (some key) ctx hist msg (.ok (some "")) =
      .ok "I couldn't generate a response." ∧
    getSupportChatResponse (some key) shist smsg (.ok none) =
      .ok "I'm having trouble connecting right now. Please try again later." ∧
    getSupportChatResponse (some key) shist smsg (.ok (some "")) =
      .ok "I'm having trouble connecting right now. Please try again later." := by
  simp [getChatResponse, getSupportChatResponse, isFalsyStr, falsyOr, hk]

/-- C10 witness: the canned strings at a concrete key, context and
transcript. -/
theorem empty_reply_returns_canned_string_witness :
    ("key" : String) ≠ "" ∧
    (getChatResponse (some "key") sampleAnalysis [] "hi" (.ok none) =
       .ok "I couldn't generate a response." ∧
     getChatResponse (some "key") sampleAnalysis [] "hi" (.ok (some "")) =
       .ok "I couldn't generate a response." ∧
     getSupportChatResponse (some "key") [supportChatWelcome] "help" (.ok none) =
       .ok "I'm having trouble connecting right now. Please try again later." ∧
     getSupportChatResponse (some "key") [supportChatWelcome] "help" (.ok (some "")) =
       .ok "I'm having trouble connecting right now. Please try again later.") :=
  ⟨by decide,
   empty_reply_returns_canned_string "key" (by decide) sampleAnalysis []
     [supportChatWelcome] "hi" "help"⟩

/-- Helper: the exact state produced by a successful `handleItemSelect`
when media with a non-empty base64 payload is present. -/
theorem handleItemSelect_ok (s : AppState) (media : MediaFile) (b : String)
    (item : Option DetectedItem) (analysisResult : FixItResponse)
    (freshId : String) (now : Nat)
    (hm : s.currentMedia = some media) (hb : media.base64 = some b) (hne : b ≠ "") :
    (handleItemSelect s item (.ok analysisResult) freshId now).1 =
      { s with
        status := .SUCCESS,
        result := some (withMeta analysisResult freshId now media.previewUrl),
        history := withMeta analysisResult freshId now media.previewUrl :: s.history } := by
  simp [handleItemSelect, hm, hb, isFalsyStr, hne]

/-- C5: a successful diagnosis stores a result stamped with the freshly
generated identifier and the creation timestamp (whatever id or
timestamp the model's response carried, they are overwritten), makes it
the current result, enters `SUCCESS` (Presenting), and prepends it to
the history so the log stays most-recent-first with its previous
entries unchanged. -/
theorem diagnosis_success_stamps_and_prepends (s : AppState) (media : MediaFile)
    (b : String) (item : Option DetectedItem) (analysisResult : FixItResponse)
    (freshId : String) (now : Nat)
    (hm : s.currentMedia = some media) (hb : media.base64 = some b) (hne : b ≠ "") :
    (handleItemSelect s item (.ok analysisResult) freshId now).1.status = .SUCCESS ∧
    (handleItemSelect s item (.ok analysisResult) freshId now).1.result =
      some (withMeta analysisResult freshId now media.previewUrl) ∧
    (handleItemSelect s item (.ok analysisResult) freshId now).1.history =
      withMeta analysisResult freshId now media.previewUrl :: s.history ∧
    (withMeta analysisResult freshId now media.previewUrl).id = some freshId ∧
    (withMeta analysisResult freshId now media.previewUrl).timestamp = some now := by
  rw [handleItemSelect_ok s media b item analysisResult freshId now hm hb hne]
  exact ⟨rfl, rfl, rfl, rfl, rfl⟩

/-- C5 witness: a concrete successful diagnosis, with a response that
even carries its own id and timestamp — the stored ones are the fresh
ones. -/
theorem diagnosis_success_stamps_and_prepends_witness :
    (sampleState.currentMedia = some sampleMedia ∧
     sampleMedia.base64 = some "QUJD" ∧ ("QUJD" : String) ≠ "") ∧
    ((handleItemSelect sampleState (some sampleItem)
        (.ok { sampleAnalysis with id := some "model-id", timestamp := some 1 })
        "uuid-1" 42).1.status = .SUCCESS ∧
     (handleItemSelect sampleState (some sampleItem)
        (.ok { sampleAnalysis with id := some "model-id", timestamp := some 1 })
        "uuid-1" 42).1.result =
       some (withMeta { sampleAnalysis with id := some "model-id", timestamp := some 1 }
         "uuid-1" 42 sampleMedia.previewUrl) ∧
     (handleItemSelect sampleState (some sampleItem)
        (.ok { sampleAnalysis with id := some "model-id", timestamp := some 1 })
        "uuid-1" 42).1.history =
       withMeta { sampleAnalysis with id := some "model-id", timestamp := some 1 }
         "uuid-1" 42 sampleMedia.previewUrl :: sampleState.history ∧
     (withMeta { sampleAnalysis with id := some "model-id", timestamp := some 1 }
        "uuid-1" 42 sampleMedia.previewUrl).id = some "uuid-1" ∧
     (withMeta { sampleAnalysis with id := some "model-id", timestamp := some 1 }
        "uuid-1" 42 sampleMedia.previewUrl).timestamp = some 42) :=
  ⟨⟨rfl, rfl, by decide⟩,
   diagnosis_success_stamps_and_prepends sampleState sampleMedia "QUJD"
     (some sampleItem) { sampleAnalysis with id := some "model-id", timestamp := some 1 }
     "uuid-1" 42 rfl rfl (by decide)⟩

/-- C6: when a repair-chat or support-chat call fails, that chat's
fixed fallback apology is appended as an assistant turn after the
already-appended user turn, and the session state machine is untouched
— it neither transitions to `ERROR` nor loses its current result. -/
theorem chat_failure_appends_fallback_and_keeps_session (s : AppState)
    (c : RepairChatState) (cs : SupportChatState)
    (h1 : trimmed c.input ≠ "") (h2 : c.isChatLoading = false)
    (h3 : trimmed cs.input ≠ "") (h4 : cs.isLoading = false) :
    (sessionChatSend s c (.error ())).2.chatHistory =
      c.chatHistory ++ [⟨.user, c.input⟩, ⟨.model, repairChatFallback⟩] ∧
    (sessionChatSend s c (.error ())).1 = s ∧
    (sessionSupportSend s cs (.error ())).2.messages =
      cs.messages ++ [⟨.user, cs.input⟩, ⟨.model, supportChatFallback⟩] ∧
    (sessionSupportSend s cs (.error ())).1 = s := by
  simp [sessionChatSend, sessionSupportSend, handleSendChat, handleSend, h1, h2, h3, h4]

/-- C6 witness: a concrete failed send in both chats, from a session
that is presenting a result. -/
theorem chat_failure_appends_fallback_and_keeps_session_witness :
    (trimmed "How long does it take?" ≠ "" ∧
     trimmed "Where is the history?" ≠ "") ∧
    ((sessionChatSend cexState ⟨[], "How long does it take?", false⟩ (.error ())).2.chatHistory =
       [⟨.user, "How long does it take?"⟩, ⟨.model, repairChatFallback⟩] ∧
     (sessionChatSend cexState ⟨[], "How long does it take?", false⟩ (.error ())).1 = cexState ∧
     (sessionSupportSend cexState ⟨[supportChatWelcome], "Where is the history?", false⟩
        (.error ())).2.messages =
       [supportChatWelcome, ⟨.user, "Where is the history?"⟩, ⟨.model, supportChatFallback⟩] ∧
     (sessionSupportSend cexState ⟨[supportChatWelcome], "Where is the history?", false⟩
        (.error ())).1 = cexState) := by
  refine ⟨⟨by decide, by decide⟩, ?_⟩
  have h := chat_failure_appends_fallback_and_keeps_session cexState
    ⟨[], "How long does it take?", false⟩
    ⟨[supportChatWelcome], "Where is the history?", false⟩
    (by decide) rfl (by decide) rfl
  simpa using h

/-- C8: for any annotation whose box satisfies
`0 ≤ yMin ≤ yMax ≤ 1000` and `0 ≤ xMin ≤ xMax ≤ 1000`, the computed
overlay lies within the displayed image: `top`, `left`, `top + height`
and `left + width` are each between 0 % and 100 %. -/
theorem overlay_within_image_bounds (a : Annotation)
    (hy0 : 0 ≤ a.ymin) (hyy : a.ymin ≤ a.ymax) (hy1 : a.ymax ≤ 1000)
    (hx0 : 0 ≤ a.xmin) (hxx : a.xmin ≤ a.xmax) (hx1 : a.xmax ≤ 1000) :
    0 ≤ (annotationOverlay a).top ∧ (annotationOverlay a).top ≤ 100 ∧
    0 ≤ (annotationOverlay a).left ∧ (annotationOverlay a).left ≤ 100 ∧
    0 ≤ (annotationOverlay a).top + (annotationOverlay a).height ∧
    (annotationOverlay a).top + (annotationOverlay a).height ≤ 100 ∧
    0 ≤ (annotationOverlay a).left + (annotationOverlay a).width ∧
    (annotationOverlay a).left + (annotationOverlay a).width ≤ 100 := by
  have hy0' : (0 : ℚ) ≤ (a.ymin : ℚ) := by exact_mod_cast hy0
  have hyy' : (a.ymin : ℚ) ≤ (a.ymax : ℚ) := by exact_mod_cast hyy
  have hy1' : (a.ymax : ℚ) ≤ 1000 := by exact_mod_cast hy1
  have hx0' : (0 : ℚ) ≤ (a.xmin : ℚ) := by exact_mod_cast hx0
  have hxx' : (a.xmin : ℚ) ≤ (a.xmax : ℚ) := by exact_mod_cast hxx
  have hx1' : (a.xmax : ℚ) ≤ 1000 := by exact_mod_cast hx1
  simp only [annotationOverlay]
  refine ⟨?_, ?_, ?_, ?_, ?_, ?_, ?_, ?_⟩ <;> nlinarith

/-- C8 witness: a concrete in-range box stays inside the image. -/
theorem overlay_within_image_bounds_witness :
    ((0 : Int) ≤ 100 ∧ (100 : Int) ≤ 300 ∧ (300 : Int) ≤ 1000 ∧
     (0 : Int) ≤ 200 ∧ (200 : Int) ≤ 400 ∧ (400 : Int) ≤ 1000) ∧
    (0 ≤ (annotationOverlay ⟨"Crack", 100, 200, 300, 400⟩).top ∧
     (annotationOverlay ⟨"Crack", 100, 200, 300, 400⟩).top ≤ 100 ∧
     0 ≤ (annotationOverlay ⟨"Crack", 100, 200, 300, 400⟩).left ∧
     (annotationOverlay ⟨"Crack", 100, 200, 300, 400⟩).left ≤ 100 ∧
     0 ≤ (annotationOverlay ⟨"Crack", 100, 200, 300, 400⟩).top +
       (annotationOverlay ⟨"Crack", 100, 200, 300, 400⟩).height ∧
     (annotationOverlay ⟨"Crack", 100, 200, 300, 400⟩).top +
       (annotationOverlay ⟨"Crack", 100, 200, 300, 400⟩).height ≤ 100 ∧
     0 ≤ (annotationOverlay ⟨"Crack", 100, 200, 300, 400⟩).left +
       (annotationOverlay ⟨"Crack", 100, 200, 300, 400⟩).width ∧
     (annotationOverlay ⟨"Crack", 100, 200, 300, 400⟩).left +
       (annotationOverlay ⟨"Crack", 100, 200, 300, 400⟩).width ≤ 100) :=
  ⟨by norm_num,
   overlay_within_image_bounds ⟨"Crack", 100, 200, 300, 400⟩
     (by norm_num) (by norm_num) (by norm_num)
     (by norm_num) (by norm_num) (by norm_num)⟩

/-- C2: when detection succeeds with an empty item list on captured
media with a non-empty payload, the machine never enters `SELECTING`:
it issues, after the detection request, exactly the diagnosis request a
"no specific item" selection would issue — same media payload, same
MIME type, absent focus — and ends with the same status, result,
detected items and history as that direct no-focus selection, for every
diagnosis outcome. -/
theorem empty_detection_routes_to_no_focus_diagnosis (s : AppState)
    (media : MediaFile) (b : String) (a : Except Unit FixItResponse)
    (freshId : String) (now : Nat)
    (hm : s.currentMedia = some media) (hb : media.base64 = some b) (hne : b ≠ "") :
    (handleStartDetection s (.ok []) a freshId now).2 =
      [GatewayCall.detect b media.file.mime,
       GatewayCall.analyze b media.file.mime none] ∧
    (handleItemSelect s none a freshId now).2 =
      [GatewayCall.analyze b media.file.mime none] ∧
    (handleStartDetection s (.ok []) a freshId now).1.status ≠ .SELECTING ∧
    (handleStartDetection s (.ok []) a freshId now).1.status =
      (handleItemSelect s none a freshId now).1.status ∧
    (handleStartDetection s (.ok []) a freshId now).1.result =
      (handleItemSelect s none a freshId now).1.result ∧
    (handleStartDetection s (.ok []) a freshId now).1.detectedItems =
      (handleItemSelect s none a freshId now).1.detectedItems ∧
    (handleStartDetection s (.ok []) a freshId now).1.history =
      (handleItemSelect s none a freshId now).1.history := by
  cases a with
  | ok analysisResult =>
      simp [handleStartDetection, handleItemSelect, hm, hb, isFalsyStr, hne, focusOf]
  | error e =>
      simp [handleStartDetection, handleItemSelect, hm, hb, isFalsyStr, hne, focusOf]

/-- C2 witness: the empty-detection fallback at a concrete capture and
diagnosis outcome. -/
theorem empty_detection_routes_to_no_focus_diagnosis_witness :
    (sampleState.currentMedia = some sampleMedia ∧
     sampleMedia.base64 = some "QUJD" ∧ ("QUJD" : String) ≠ "") ∧
    ((handleStartDetection sampleState (.ok []) (.ok sampleAnalysis) "uuid-2" 43).2 =
       [GatewayCall.detect "QUJD" sampleMedia.file.mime,
        GatewayCall.analyze "QUJD" sampleMedia.file.mime none] ∧
     (handleItemSelect sampleState none (.ok sampleAnalysis) "uuid-2" 43).2 =
       [GatewayCall.analyze "QUJD" sampleMedia.file.mime none] ∧
     (handleStartDetection sampleState (.ok []) (.ok sampleAnalysis) "uuid-2" 43).1.status ≠
       .SELECTING ∧
     (handleStartDetection sampleState (.ok []) (.ok sampleAnalysis) "uuid-2" 43).1.status =
       (handleItemSelect sampleState none (.ok sampleAnalysis) "uuid-2" 43).1.status ∧
     (handleStartDetection sampleState (.ok []) (.ok sampleAnalysis) "uuid-2" 43).1.result =
       (handleItemSelect sampleState none (.ok sampleAnalysis) "uuid-2" 43).1.result ∧
     (handleStartDetection sampleState (.ok []) (.ok sampleAnalysis) "uuid-2" 43).1.detectedItems =
       (handleItemSelect sampleState none (.ok sampleAnalysis) "uuid-2" 43).1.detectedItems ∧
     (handleStartDetection sampleState (.ok []) (.ok sampleAnalysis) "uuid-2" 43).1.history =
       (handleItemSelect sampleState none (.ok sampleAnalysis) "uuid-2" 43).1.history) :=
  ⟨⟨rfl, rfl, by decide⟩,
   empty_detection_routes_to_no_focus_diagnosis sampleState sampleMedia "QUJD"
     (.ok sampleAnalysis) "uuid-2" 43 rfl rfl (by decide)⟩

/-- Helper: `handleItemSelect` only ever prepends to the history. -/
theorem handleItemSelect_history (s : AppState) (item : Option DetectedItem)
    (a : Except Unit FixItResponse) (freshId : String) (now : Nat) :
    ∃ l, (handleItemSelect s item a freshId now).1.history = l ++ s.history := by
  cases hm : s.currentMedia with
  | none => exact ⟨[], by simp [handleItemSelect, hm]⟩
  | some media =>
    by_cases hb : isFalsyStr media.base64
    · exact ⟨[], by simp [handleItemSelect, hm, hb]⟩
    · cases a with
      | ok r =>
          exact ⟨[withMeta r freshId now media.previewUrl],
            by simp [handleItemSelect, hm, hb]⟩
      | error e => exact ⟨[], by simp [handleItemSelect, hm, hb]⟩

/-- Helper: `handleStartDetection` only ever prepends to the history. -/
theorem handleStartDetection_history (s : AppState)
    (d : Except Unit (List DetectedItem)) (a : Except Unit FixItResponse)
    (freshId : String) (now : Nat) :
    ∃ l, (handleStartDetection s d a freshId now).1.history = l ++ s.history := by
  cases hm : s.currentMedia with
  | none => exact ⟨[], by simp [handleStartDetection, hm]⟩
  | some media =>
    by_cases hb : isFalsyStr media.base64
    · exact ⟨[], by simp [handleStartDetection, hm, hb]⟩
    · cases d with
      | ok items =>
          cases items with
          | nil =>
              obtain ⟨l, hl⟩ := handleItemSelect_history
                { s with status := .DETECTING, error := none } none a freshId now
              exact ⟨l, by simpa [handleStartDetection, hm, hb] using hl⟩
          | cons x xs => exact ⟨[], by simp [handleStartDetection, hm, hb]⟩
      | error e => exact ⟨[], by simp [handleStartDetection, hm, hb]⟩

/-- Helper: no event ever removes a history entry. -/
theorem step_history (s : AppState) (e : Event) :
    ∃ l, (step s e).history = l ++ s.history := by
  cases e with
  | fileSelect media =>
      refine ⟨[], ?_⟩
      simp only [step]
      unfold handleFileSelect
      split <;> rfl
  | startDetection d a freshId now =>
      simpa [step] using handleStartDetection_history s d a freshId now
  | itemSelect item a freshId now =>
      simpa [step] using handleItemSelect_history s (some item) a freshId now
  | reset => exact ⟨[], rfl⟩
  | clearFile => exact ⟨[], rfl⟩
  | selectAnother => exact ⟨[], rfl⟩
  | historySelect r => exact ⟨[], rfl⟩

/-- Helper: history membership survives any event run. -/
theorem run_history_mem (s : AppState) (evs : List Event) (r : FixItResponse)
    (h : r ∈ s.history) : r ∈ (run s evs).history := by
  induction evs generalizing s with
  | nil => simpa [run] using h
  | cons e es ih =>
      obtain ⟨l, hl⟩ := step_history s e
      exact ih (step s e) (by rw [hl]; exact List.mem_append_right l h)

/-- C9: the result a successful diagnosis prepends to the history is
still in the history after any further events, and selecting it from
the history installs exactly that record — every field byte-for-byte
identical — as the current result, entering `SUCCESS`. -/
theorem history_roundtrip_lossless (s : AppState) (media : MediaFile) (b : String)
    (item : Option DetectedItem) (analysisResult : FixItResponse)
    (freshId : String) (now : Nat) (evs : List Event)
    (hm : s.currentMedia = some media) (hb : media.base64 = some b) (hne : b ≠ "") :
    withMeta analysisResult freshId now media.previewUrl ∈
      (run (handleItemSelect s item (.ok analysisResult) freshId now).1 evs).history ∧
    (handleHistorySelect
        (run (handleItemSelect s item (.ok analysisResult) freshId now).1 evs)
        (withMeta analysisResult freshId now media.previewUrl)).result =
      some (withMeta analysisResult freshId now media.previewUrl) ∧
    (handleHistorySelect
        (run (handleItemSelect s item (.ok analysisResult) freshId now).1 evs)
        (withMeta analysisResult freshId now media.previewUrl)).status = .SUCCESS := by
  have h1 := handleItemSelect_ok s media b item analysisResult freshId now hm hb hne
  have hmem : withMeta analysisResult freshId now media.previewUrl ∈
      (handleItemSelect s item (.ok analysisResult) freshId now).1.history := by
    rw [h1]
    exact List.mem_cons_self _ _
  exact ⟨run_history_mem _ evs _ hmem, rfl, rfl⟩

/-- C9 witness: concrete round trip through a reset. -/
theorem history_roundtrip_lossless_witness :
    (sampleState.currentMedia = some sampleMedia ∧
     sampleMedia.base64 = some "QUJD" ∧ ("QUJD" : String) ≠ "") ∧
    (withMeta sampleAnalysis "uuid-3" 44 sampleMedia.previewUrl ∈
       (run (handleItemSelect sampleState none (.ok sampleAnalysis) "uuid-3" 44).1
         [.reset]).history ∧
     (handleHistorySelect
         (run (handleItemSelect sampleState none (.ok sampleAnalysis) "uuid-3" 44).1
           [.reset])
         (withMeta sampleAnalysis "uuid-3" 44 sampleMedia.previewUrl)).result =
       some (withMeta sampleAnalysis "uuid-3" 44 sampleMedia.previewUrl) ∧
     (handleHistorySelect
         (run (handleItemSelect sampleState none (.ok sampleAnalysis) "uuid-3" 44).1
           [.reset])
         (withMeta sampleAnalysis "uuid-3" 44 sampleMedia.previewUrl)).status = .SUCCESS) :=
  ⟨⟨rfl, rfl, by decide⟩,
   history_roundtrip_lossless sampleState sampleMedia "QUJD" none sampleAnalysis
     "uuid-3" 44 [.reset] rfl rfl (by decide)⟩

/-- C1 counterexample: with the key present, the external call
succeeding but delivering no response text, and `JSON.parse` behaving
as it must on the hard-coded default literal, `detectItems` returns the
empty list — it does not fail as the claim requires. -/
theorem detectItems_absent_text_is_not_failure :
    detectItems (some "key") (.ok none) parseOracleCex = .ok [] ∧
    detectItems (some "key") (.ok none) parseOracleCex ≠ .error () := by
  have h : detectItems (some "key") (.ok none) parseOracleCex = .ok [] := by
    simp [detectItems, isFalsyStr, falsyOr, parseOracleCex]
  refine ⟨h, ?_⟩
  rw [h]
  simp

/-- C1 amended: `detectItems` fails when the API key is absent or
empty, when the external call throws, and when the returned text fails
JSON parsing; a parsed `items` list is returned whole, never partially.
However, an absent or empty response text, and a parsed object lacking
the `items` field, are silently coerced to the empty list instead of a
failure. -/
theorem detectItems_error_policy (key : String) (hk : key ≠ "")
    (jsonParse jp : String → Option DetectParsed)
    (hdef : jsonParse defaultDetectJson = some ⟨some []⟩)
    (ex : Except Unit (Option String))
    (t1 t2 t3 : String) (items : List DetectedItem)
    (ht1 : t1 ≠ "") (hp1 : jsonParse t1 = none)
    (ht2 : t2 ≠ "") (hp2 : jsonParse t2 = some ⟨none⟩)
    (ht3 : t3 ≠ "") (hp3 : jsonParse t3 = some ⟨some items⟩) :
    detectItems none ex jp = .error () ∧
    detectItems (some key) (.error ()) jsonParse = .error () ∧
    detectItems (some key) (.ok (some t1)) jsonParse = .error () ∧
    detectItems (some key) (.ok none) jsonParse = .ok [] ∧
    detectItems (some key) (.ok (some "")) jsonParse = .ok [] ∧
    detectItems (some key) (.ok (some t2)) jsonParse = .ok [] ∧
    detectItems (some key) (.ok (some t3)) jsonParse = .ok items := by
  refine ⟨?_, ?_, ?_, ?_, ?_, ?_, ?_⟩
  · simp [detectItems, isFalsyStr]
  · simp [detectItems, isFalsyStr, hk]
  · simp [detectItems, isFalsyStr, falsyOr, hk, ht1, hp1]
  · simp [detectItems, isFalsyStr, falsyOr, hk, hdef]
  · simp [detectItems, isFalsyStr, falsyOr, hk, hdef]
  · simp [detectItems, isFalsyStr, falsyOr, hk, ht2, hp2]
  · simp [detectItems, isFalsyStr, falsyOr, hk, ht3, hp3]

/-- A `JSON.parse` oracle exercising all branches of the amended
detection policy: the default literal parses to an empty list, `"bad"`
fails to parse, an empty object lacks the `items` field, and `"good"`
parses to a one-item list. -/
def parseOracleW : String → Option DetectParsed := fun t =>
  if t == defaultDetectJson then some ⟨some []⟩
  else if t == "bad" then none
  else if t == "\x7b\x7d" then some ⟨none⟩
  else if t == "good" then some ⟨some [⟨"1", "Faucet", "dripping at the base"⟩]⟩
  else none

/-- C1 amended witness: the policy at a concrete key and parse oracle. -/
theorem detectItems_error_policy_witness :
    (("key" : String) ≠ "" ∧
     parseOracleW defaultDetectJson = some ⟨some []⟩ ∧
     ("bad" : String) ≠ "" ∧ parseOracleW "bad" = none ∧
     ("\x7b\x7d" : String) ≠ "" ∧ parseOracleW "\x7b\x7d" = some ⟨none⟩ ∧
     ("good" : String) ≠ "" ∧
     parseOracleW "good" = some ⟨some [⟨"1", "Faucet", "dripping at the base"⟩]⟩) ∧
    (detectItems none (.ok none) parseOracleW = .error () ∧
     detectItems (some "key") (.error ()) parseOracleW = .error () ∧
     detectItems (some "key") (.ok (some "bad")) parseOracleW = .error () ∧
     detectItems (some "key") (.ok none) parseOracleW = .ok [] ∧
     detectItems (some "key") (.ok (some "")) parseOracleW = .ok [] ∧
     detectItems (some "key") (.ok (some "\x7b\x7d")) parseOracleW = .ok [] ∧
     detectItems (some "key") (.ok (some "good")) parseOracleW =
       .ok [⟨"1", "Faucet", "dripping at the base"⟩]) :=
  ⟨⟨by decide, by decide, by decide, by decide, by decide, by decide, by decide,
    by decide⟩,
   detectItems_error_policy "key" (by decide) parseOracleW parseOracleW
     (by decide) (.ok none) "bad" "\x7b\x7d" "good"
     [⟨"1", "Faucet", "dripping at the base"⟩]
     (by decide) (by decide) (by decide) (by decide) (by decide) (by decide)⟩

/-- Helper: when media with a non-empty payload is present,
`handleItemSelect` ends in `SUCCESS` or `ERROR`. -/
theorem handleItemSelect_post (s : AppState) (item : Option DetectedItem)
    (a : Except Unit FixItResponse) (freshId : String) (now : Nat)
    (media : MediaFile) (hm : s.currentMedia = some media)
    (hb : ¬ isFalsyStr media.base64 = true) :
    (handleItemSelect s item a freshId now).1.status = .SUCCESS ∨
    (handleItemSelect s item a freshId now).1.status = .ERROR := by
  cases a with
  | ok r => exact Or.inl (by simp [handleItemSelect, hm, hb])
  | error e => exact Or.inr (by simp [handleItemSelect, hm, hb])

/-- Helper: `handleStartDetection` either leaves the state unchanged
(guard failure) or ends in `SELECTING`, `SUCCESS` or `ERROR`. -/
theorem handleStartDetection_post (s : AppState)
    (d : Except Unit (List DetectedItem)) (a : Except Unit FixItResponse)
    (freshId : String) (now : Nat) :
    (handleStartDetection s d a freshId now).1 = s ∨
    (handleStartDetection s d a freshId now).1.status = .SELECTING ∨
    (handleStartDetection s d a freshId now).1.status = .SUCCESS ∨
    (handleStartDetection s d a freshId now).1.status = .ERROR := by
  cases hm : s.currentMedia with
  | none => exact Or.inl (by simp [handleStartDetection, hm])
  | some media =>
    by_cases hb : isFalsyStr media.base64
    · exact Or.inl (by simp [handleStartDetection, hm, hb])
    · cases d with
      | ok items =>
          cases items with
          | nil =>
              have heq : (handleStartDetection s (.ok []) a freshId now).1 =
                  (handleItemSelect { s with status := .DETECTING, error := none }
                    none a freshId now).1 := by
                simp [handleStartDetection, hm, hb]
              have hp := handleItemSelect_post
                { s with status := .DETECTING, error := none } none a freshId now
                media (by simpa using hm) hb
              rw [heq]
              rcases hp with h | h
              · exact Or.inr (Or.inr (Or.inl h))
              · exact Or.inr (Or.inr (Or.inr h))
          | cons x xs =>
              exact Or.inr (Or.inl (by simp [handleStartDetection, hm, hb]))
      | error e =>
          exact Or.inr (Or.inr (Or.inr (by simp [handleStartDetection, hm, hb])))

/-- Helper invariant: in every reachable state whose status is `IDLE`
or `UPLOADED` — exactly the states in which the upload widget, and with
it the clear-capture control, is rendered — the current result and the
error are both absent. -/
theorem reachable_idle_uploaded_clean (s : AppState) (h : Reachable s) :
    (s.status = .IDLE ∨ s.status = .UPLOADED) →
    s.result = none ∧ s.error = none := by
  induction h with
  | init => exact fun _ => ⟨rfl, rfl⟩
  | next s e hr hen ih =>
    intro hst
    cases e with
    | fileSelect media =>
        have hpre : s.result = none ∧ s.error = none := ih hen
        by_cases hb : isFalsyStr media.base64
        · simpa [step, handleFileSelect, hb] using hpre
        · simp [step, handleFileSelect, hb]
          exact hpre.1
    | startDetection d a freshId now =>
        have hpre : s.result = none ∧ s.error = none := ih (Or.inr hen)
        rcases handleStartDetection_post s d a freshId now with he | hp | hp | hp
        · have : step s (.startDetection d a freshId now) = s := he
          rw [this]
          exact hpre
        all_goals
          rcases hst with h | h <;> rw [show step s (.startDetection d a freshId now) =
            (handleStartDetection s d a freshId now).1 from rfl] at h <;>
            rw [h] at hp <;> exact absurd hp (by decide)
    | itemSelect item a freshId now =>
        have hen' : s.status = .SELECTING ∧ s.currentMedia ≠ none ∧
            item ∈ s.detectedItems := hen
        obtain ⟨hsel, hmne, -⟩ := hen'
        cases hm : s.currentMedia with
        | none => exact absurd hm hmne
        | some media =>
          by_cases hb : isFalsyStr media.base64
          · rcases hst with h | h <;>
              rw [show step s (.itemSelect item a freshId now) =
                (handleItemSelect s (some item) a freshId now).1 from rfl] at h <;>
              simp [handleItemSelect, hm, hb] at h <;>
              rw [hsel] at h <;> exact absurd h (by decide)
          · rcases handleItemSelect_post s (some item) a freshId now media hm hb
              with hp | hp <;>
              rcases hst with h | h <;>
              rw [show step s (.itemSelect item a freshId now) =
                (handleItemSelect s (some item) a freshId now).1 from rfl] at h <;>
              rw [h] at hp <;> exact absurd hp (by decide)
    | reset => exact ⟨rfl, rfl⟩
    | clearFile =>
        exact ih hen
    | selectAnother =>
        rcases hst with h | h <;> simp [step, handleSelectAnother] at h
    | historySelect r =>
        rcases hst with h | h <;> simp [step, handleHistorySelect] at h

/-- C3 amended: in every reachable state in which the clear-capture
control is available (status `IDLE` or `UPLOADED`, where the upload
widget is rendered), `handleClearFile` produces exactly the same
session state as `handleReset`: same status, media, items, result,
error and history. -/
theorem clearCapture_equals_reset_when_available (s : AppState)
    (h : Reachable s) (hst : s.status = .IDLE ∨ s.status = .UPLOADED) :
    handleClearFile s = handleReset s := by
  obtain ⟨hr, he⟩ := reachable_idle_uploaded_clean s h hst
  simp [handleClearFile, handleReset, hr, he]

/-- C3 amended witness: clear-capture and reset agree at the initial
(idle) state. -/
theorem clearCapture_equals_reset_when_available_witness :
    (Reachable initialState ∧
     (initialState.status = .IDLE ∨ initialState.status = .UPLOADED)) ∧
    handleClearFile initialState = handleReset initialState :=
  ⟨⟨Reachable.init, Or.inl rfl⟩,
   clearCapture_equals_reset_when_available initialState Reachable.init (Or.inl rfl)⟩

/-- C3 counterexample: a reachable state — reached by a capture
followed by an empty detection and a successful diagnosis, so the
machine is in `SUCCESS` with a stored result — at which
`handleClearFile` and `handleReset` disagree: clear-capture keeps the
current result and error, reset clears them. -/
theorem clearCapture_differs_from_reset_at_reachable_state :
    Reachable cexState ∧ handleClearFile cexState ≠ handleReset cexState := by
  constructor
  · have h1 : Reachable (step initialState (.fileSelect cexMedia)) :=
      Reachable.next initialState (.fileSelect cexMedia) Reachable.init (Or.inl rfl)
    have hup : (step initialState (.fileSelect cexMedia)).status = .UPLOADED := by
      decide
    have h2 : Reachable (step (step initialState (.fileSelect cexMedia))
        (.startDetection (.ok []) (.ok cexAnalysis) "cex-id" 7)) :=
      Reachable.next _ (.startDetection (.ok []) (.ok cexAnalysis) "cex-id" 7)
        h1 hup
    exact h2
  · decide

end FixIt
